import Mathlib

/-!
Shallow embedding of the snake-game simulation core in `src/main.py`.

Positions are integer pixel pairs, exactly as in the Python code (the grid
cell size is `BLOCK_SIZE = 20` pixels).  The pygame rendering, font, event
and clock calls are I/O with no algorithmic content and are not modelled;
`Game.tick` models one iteration of `Game.run`'s main loop (direction input
only; window-quit events are external).  The global random source used by
`Food.generate_valid_position` is modelled as an injected stream of
`random.randint` draws, and the `while True` retry loop is unrolled with an
explicit fuel argument: a run of the loop that returns is one that returns
within some finite fuel.
-/

/-- A position in pixels, as the Python code stores it: `Tuple[int, int]`. -/
abbrev Pos := Int × Int

/-- `BLOCK_SIZE = 20` from `src/main.py`. -/
def BLOCK_SIZE : Int := 20

/-- `SCREEN_WIDTH = 800` from `src/main.py`. -/
def SCREEN_WIDTH : Int := 800

/-- `SCREEN_HEIGHT = 600` from `src/main.py`. -/
def SCREEN_HEIGHT : Int := 600

namespace Direction

/-- `Direction.UP = (0, -BLOCK_SIZE)`. -/
def UP : Pos := (0, -BLOCK_SIZE)

/-- `Direction.DOWN = (0, BLOCK_SIZE)`. -/
def DOWN : Pos := (0, BLOCK_SIZE)

/-- `Direction.LEFT = (-BLOCK_SIZE, 0)`. -/
def LEFT : Pos := (-BLOCK_SIZE, 0)

/-- `Direction.RIGHT = (BLOCK_SIZE, 0)`. -/
def RIGHT : Pos := (BLOCK_SIZE, 0)

end Direction

/-- The mutable state of class `Snake`: the ordered body (head first), the
current direction vector, and the growth flag. -/
structure Snake where
  body : List Pos
  direction : Pos
  grow : Bool
  deriving DecidableEq, Repr

/-- `Snake.__init__`: three segments at the screen centre, heading RIGHT,
growth flag clear. -/
def Snake.init : Snake :=
  { body := [(SCREEN_WIDTH / 2, SCREEN_HEIGHT / 2),
             (SCREEN_WIDTH / 2 - BLOCK_SIZE, SCREEN_HEIGHT / 2),
             (SCREEN_WIDTH / 2 - 2 * BLOCK_SIZE, SCREEN_HEIGHT / 2)],
    direction := Direction.RIGHT,
    grow := false }

/-- `Snake.move`: prepend `new_head = body[0] + direction`; if `grow` is
clear pop the last segment, otherwise clear `grow`.  The Python code indexes
`body[0]`, so the body is assumed nonempty; on an empty body we return the
state unchanged (that branch is unreachable in the game). -/
def Snake.move (s : Snake) : Snake :=
  match s.body with
  | [] => s
  | h :: t =>
    let new_head : Pos := (h.1 + s.direction.1, h.2 + s.direction.2)
    if s.grow then
      { s with body := new_head :: h :: t, grow := false }
    else
      { s with body := (new_head :: h :: t).dropLast }

/-- `Snake.change_direction`: set `direction := new_direction` unless the
component-wise sum of the current and requested vectors is `(0, 0)` (the
requested direction is the exact opposite), in which case do nothing. -/
def Snake.change_direction (s : Snake) (new_direction : Pos) : Snake :=
  if s.direction.1 + new_direction.1 = 0 ∧ s.direction.2 + new_direction.2 = 0 then
    s
  else
    { s with direction := new_direction }

/-- `Snake.check_collision`: true iff the head occurs in `body[1:]` or lies
outside the screen rectangle.  The Python code indexes `body[0]`; on an
empty body we return `false` (unreachable in the game). -/
def Snake.check_collision (s : Snake) : Bool :=
  match s.body with
  | [] => false
  | head :: rest =>
    decide (head ∈ rest) || decide (head.1 < 0) || decide (head.1 ≥ SCREEN_WIDTH)
      || decide (head.2 < 0) || decide (head.2 ≥ SCREEN_HEIGHT)

/-- The candidate position produced by the `n`-th iteration of the retry
loop in `Food.generate_valid_position`: the two `random.randint` draws
(`rand n`) scaled by `BLOCK_SIZE`.  `random.randint(0, hi)` returns a value
in `[0, hi]`; that range constraint is stated as a hypothesis where a
theorem needs it. -/
def candidate (rand : Nat → Nat × Nat) (n : Nat) : Pos :=
  (((rand n).1 : Int) * BLOCK_SIZE, ((rand n).2 : Int) * BLOCK_SIZE)

/-- Fuel-bounded unrolling of the `while True` loop in
`Food.generate_valid_position`, examining draws `i, i+1, ...`: return the
first candidate not in `snake_body`, or `none` if none of the next `fuel`
draws qualifies (the Python loop would keep spinning). -/
def generate_valid_position_aux (rand : Nat → Nat × Nat) (snake_body : List Pos) :
    Nat → Nat → Option Pos
  | _, 0 => none
  | i, fuel + 1 =>
    if candidate rand i ∈ snake_body then
      generate_valid_position_aux rand snake_body (i + 1) fuel
    else
      some (candidate rand i)

/-- `Food.generate_valid_position`, starting from the first draw. -/
def generate_valid_position (rand : Nat → Nat × Nat) (snake_body : List Pos)
    (fuel : Nat) : Option Pos :=
  generate_valid_position_aux rand snake_body 0 fuel

/-- The mutable state of class `Game` that the simulation core touches:
the snake, the current food position, the score, and the `running` flag. -/
structure Game where
  snake : Snake
  food : Pos
  score : Nat
  running : Bool
  deriving DecidableEq, Repr

/-- `Game.update`, with the food replacement (`Food(self.snake.body)`)
abstracted as an injected `spawn` function: move the snake; if the new head
equals the food position, set the growth flag, add 1 to the score and spawn
new food against the post-move body; finally, if the post-move snake
collides, clear `running`. -/
def Game.update (spawn : List Pos → Pos) (g : Game) : Game :=
  let s1 := g.snake.move
  let g1 :=
    if s1.body.headI = g.food then
      { g with snake := { s1 with grow := true },
               score := g.score + 1,
               food := spawn s1.body }
    else
      { g with snake := s1 }
  if g1.snake.check_collision then { g1 with running := false } else g1

/-- The direction-key part of `Game.handle_input`: an arrow key calls
`change_direction` with the mapped direction; no key leaves the state
alone.  (QUIT/ESC events stop the loop and are external input, not
modelled.) -/
def Game.handle_input (dir : Option Pos) (g : Game) : Game :=
  match dir with
  | none => g
  | some d => { g with snake := g.snake.change_direction d }

/-- One iteration of `Game.run`'s main loop, as observed per external tick:
while `running` is set the loop body runs `handle_input` then `update`;
once `running` is clear the loop has exited and the state never changes
again. -/
def Game.tick (spawn : List Pos → Pos) (dir : Option Pos) (g : Game) : Game :=
  if g.running then Game.update spawn (Game.handle_input dir g) else g

/-- C1: `Snake.move` computes `new_head = head + direction`, inserts it at
the front of the body; with `grow` clear it removes the last segment so the
length is preserved; with `grow` set it retains the tail so the length
increases by exactly 1, and `grow` is reset to `false`. -/
theorem Snake.move_spec (s : Snake) (h : Pos) (t : List Pos) (hb : s.body = h :: t) :
    (s.move).body.head? = some (h.1 + s.direction.1, h.2 + s.direction.2) ∧
    (s.grow = false →
      (s.move).body = (h.1 + s.direction.1, h.2 + s.direction.2) :: (h :: t).dropLast ∧
      (s.move).body.length = s.body.length ∧ (s.move).grow = false) ∧
    (s.grow = true →
      (s.move).body = (h.1 + s.direction.1, h.2 + s.direction.2) :: h :: t ∧
      (s.move).body.length = s.body.length + 1 ∧ (s.move).grow = false) := by
  obtain ⟨b, d, gr⟩ := s
  simp only at hb
  subst hb
  cases gr <;> simp [Snake.move, List.length_dropLast]

/-- Witness for C1 at the initial snake (tokens 400/300/380/360 are the
concrete centre-of-screen body). -/
theorem Snake.move_spec_witness :
    (Snake.init.move).body.head? =
      some ((400 : Int) + Snake.init.direction.1, (300 : Int) + Snake.init.direction.2) ∧
    (Snake.init.grow = false →
      (Snake.init.move).body =
        ((400 : Int) + Snake.init.direction.1, (300 : Int) + Snake.init.direction.2) ::
          (((400 : Int), (300 : Int)) :: [((380 : Int), (300 : Int)), ((360 : Int), (300 : Int))]).dropLast ∧
      (Snake.init.move).body.length = Snake.init.body.length ∧
      (Snake.init.move).grow = false) ∧
    (Snake.init.grow = true →
      (Snake.init.move).body =
        ((400 : Int) + Snake.init.direction.1, (300 : Int) + Snake.init.direction.2) ::
          ((400 : Int), (300 : Int)) :: [((380 : Int), (300 : Int)), ((360 : Int), (300 : Int))] ∧
      (Snake.init.move).body.length = Snake.init.body.length + 1 ∧
      (Snake.init.move).grow = false) :=
  Snake.move_spec Snake.init ((400 : Int), (300 : Int))
    [((380 : Int), (300 : Int)), ((360 : Int), (300 : Int))] (by decide)

/-- C2: `Snake.change_direction` sets the heading to the requested vector
unless the component-wise sum of the current and requested vectors is zero
(exact opposite), in which case the call leaves the state unchanged. -/
theorem Snake.change_direction_spec (s : Snake) (nd : Pos) :
    (s.direction.1 + nd.1 = 0 ∧ s.direction.2 + nd.2 = 0 → s.change_direction nd = s) ∧
    (¬(s.direction.1 + nd.1 = 0 ∧ s.direction.2 + nd.2 = 0) →
      (s.change_direction nd).direction = nd ∧
      (s.change_direction nd).body = s.body ∧
      (s.change_direction nd).grow = s.grow) := by
  constructor <;> intro hcond <;> simp [Snake.change_direction, hcond]

/-- Witness for C2: a LEFT request against a RIGHT heading is a no-op, and
an UP request against a RIGHT heading takes effect. -/
theorem Snake.change_direction_spec_witness :
    Snake.init.change_direction Direction.LEFT = Snake.init ∧
    (Snake.init.change_direction Direction.UP).direction = Direction.UP ∧
    (Snake.init.change_direction Direction.UP).body = Snake.init.body ∧
    (Snake.init.change_direction Direction.UP).grow = Snake.init.grow :=
  ⟨(Snake.change_direction_spec Snake.init Direction.LEFT).1 (by decide),
   (Snake.change_direction_spec Snake.init Direction.UP).2 (by decide)⟩

/-- C3: `Snake.check_collision` returns true iff the head appears among the
body segments excluding the head itself, or the head lies outside the
screen bounds. -/
theorem Snake.check_collision_spec (s : Snake) (head : Pos) (rest : List Pos)
    (hb : s.body = head :: rest) :
    s.check_collision = true ↔
      head ∈ rest ∨ head.1 < 0 ∨ head.1 ≥ SCREEN_WIDTH ∨
        head.2 < 0 ∨ head.2 ≥ SCREEN_HEIGHT := by
  obtain ⟨b, d, gr⟩ := s
  simp only at hb
  subst hb
  simp [Snake.check_collision, or_assoc]

/-- Witness for C3: a head past the left edge collides. -/
theorem Snake.check_collision_spec_witness :
    (Snake.mk [((-20 : Int), (300 : Int))] Direction.LEFT false).check_collision = true ↔
      ((-20 : Int), (300 : Int)) ∈ ([] : List Pos) ∨
        ((-20 : Int) : Int) < 0 ∨ ((-20 : Int) : Int) ≥ SCREEN_WIDTH ∨
        ((300 : Int) : Int) < 0 ∨ ((300 : Int) : Int) ≥ SCREEN_HEIGHT :=
  Snake.check_collision_spec (Snake.mk [((-20 : Int), (300 : Int))] Direction.LEFT false)
    ((-20 : Int), (300 : Int)) [] rfl

/-- Helper: in a duplicate-free list, the last element does not occur in
`dropLast` (the list without its last element). -/
theorem getLast_not_mem_dropLast {α : Type} {l : List α} (hl : l ≠ [])
    (hnd : l.Nodup) : l.getLast hl ∉ l.dropLast := by
  intro hmem
  have hsplit := List.dropLast_append_getLast hl
  rw [← hsplit] at hnd
  rcases List.nodup_append.mp hnd with ⟨-, -, hdisj⟩
  exact hdisj hmem (by simp)

/-- Helper: the body, growth flag and direction after `Snake.move`, for a
nonempty body, in both growth branches at once. -/
theorem Snake.move_body_eq (s : Snake) (h : Pos) (t : List Pos) (hb : s.body = h :: t) :
    s.move.body = (h.1 + s.direction.1, h.2 + s.direction.2) ::
      (if s.grow then h :: t else (h :: t).dropLast) ∧
    s.move.grow = false ∧ s.move.direction = s.direction := by
  obtain ⟨b, d, gr⟩ := s
  simp only at hb
  subst hb
  cases gr <;> cases t <;> simp [Snake.move]

/-- Helper: `check_collision` on a snake whose body is written as a cons,
as a propositional disjunction. -/
theorem Snake.check_collision_cons (s : Snake) (head : Pos) (rest : List Pos)
    (hb : s.body = head :: rest) :
    s.check_collision = true ↔
      head ∈ rest ∨ head.1 < 0 ∨ head.1 ≥ SCREEN_WIDTH ∨
        head.2 < 0 ∨ head.2 ≥ SCREEN_HEIGHT := by
  obtain ⟨b, d, gr⟩ := s
  simp only at hb
  subst hb
  simp [Snake.check_collision, or_assoc]

/-- C4: for a duplicate-free body of length ≥ 2 whose in-bounds tail cell is
exactly the cell the new head moves onto, the move with `grow` clear drops
that tail before the collision check, so no collision is reported; with
`grow` set the tail is retained and the collision check reports the
head/retained-tail coincidence. -/
theorem Snake.move_tail_chase (s : Snake) (h : Pos) (t : List Pos)
    (hb : s.body = h :: t) (hnd : (h :: t).Nodup)
    (hx0 : 0 ≤ ((h :: t).getLast (List.cons_ne_nil h t)).1)
    (hx1 : ((h :: t).getLast (List.cons_ne_nil h t)).1 < SCREEN_WIDTH)
    (hy0 : 0 ≤ ((h :: t).getLast (List.cons_ne_nil h t)).2)
    (hy1 : ((h :: t).getLast (List.cons_ne_nil h t)).2 < SCREEN_HEIGHT)
    (hhead : (h.1 + s.direction.1, h.2 + s.direction.2) =
      (h :: t).getLast (List.cons_ne_nil h t)) :
    (s.grow = false → s.move.check_collision = false) ∧
    (s.grow = true → s.move.check_collision = true) := by
  obtain ⟨hbody, -, -⟩ := Snake.move_body_eq s h t hb
  constructor
  · intro hgrow
    rw [hgrow, if_neg (by simp)] at hbody
    rw [Bool.eq_false_iff]
    intro hcol
    rcases (Snake.check_collision_cons s.move _ _ hbody).mp hcol with
      hmem | hout | hout | hout | hout
    · rw [hhead] at hmem
      exact getLast_not_mem_dropLast (List.cons_ne_nil h t) hnd hmem
    · rw [hhead] at hout; omega
    · rw [hhead] at hout; omega
    · rw [hhead] at hout; omega
    · rw [hhead] at hout; omega
  · intro hgrow
    rw [hgrow, if_pos rfl] at hbody
    refine (Snake.check_collision_cons s.move _ _ hbody).mpr (Or.inl ?_)
    rw [hhead]
    exact List.getLast_mem (List.cons_ne_nil h t)

/-- Witness for C4: body `[(400,300),(380,300)]` heading LEFT, the new head
`(380,300)` re-occupies the vacated tail; with `grow` clear this is not a
collision. -/
theorem Snake.move_tail_chase_witness :
    ((Snake.mk [((400 : Int), (300 : Int)), ((380 : Int), (300 : Int))]
        Direction.LEFT false).grow = false →
      (Snake.mk [((400 : Int), (300 : Int)), ((380 : Int), (300 : Int))]
        Direction.LEFT false).move.check_collision = false) ∧
    ((Snake.mk [((400 : Int), (300 : Int)), ((380 : Int), (300 : Int))]
        Direction.LEFT false).grow = true →
      (Snake.mk [((400 : Int), (300 : Int)), ((380 : Int), (300 : Int))]
        Direction.LEFT false).move.check_collision = true) :=
  Snake.move_tail_chase
    (Snake.mk [((400 : Int), (300 : Int)), ((380 : Int), (300 : Int))] Direction.LEFT false)
    ((400 : Int), (300 : Int)) [((380 : Int), (300 : Int))] rfl
    (by decide) (by decide) (by decide) (by decide) (by decide) (by decide)

/-- C9: if the body is duplicate-free before a move and the post-move
collision check reports `false`, the post-move body is duplicate-free; by
contraposition, a duplicate in the post-move body forces the collision
check to report `true` on that same step. -/
theorem Snake.move_nodup (s : Snake) (h : Pos) (t : List Pos) (hb : s.body = h :: t)
    (hnd : s.body.Nodup) (hc : s.move.check_collision = false) :
    s.move.body.Nodup := by
  obtain ⟨hbody, -, -⟩ := Snake.move_body_eq s h t hb
  rw [hb] at hnd
  have hiff := Snake.check_collision_cons s.move _ _ hbody
  have hnmem : (h.1 + s.direction.1, h.2 + s.direction.2) ∉
      (if s.grow then h :: t else (h :: t).dropLast) := by
    intro hmem
    have htrue := hiff.mpr (Or.inl hmem)
    rw [hc] at htrue
    exact Bool.false_ne_true htrue
  rw [hbody]
  refine List.nodup_cons.mpr ⟨hnmem, ?_⟩
  cases s.grow
  · simpa using (List.dropLast_sublist (h :: t)).nodup hnd
  · simpa using hnd

/-- Witness for C9 at the initial snake: the first move collides with
nothing and the resulting body is duplicate-free. -/
theorem Snake.move_nodup_witness : Snake.init.move.body.Nodup :=
  Snake.move_nodup Snake.init ((400 : Int), (300 : Int))
    [((380 : Int), (300 : Int)), ((360 : Int), (300 : Int))] (by decide) (by decide) (by decide)

/-- C5: in `Game.update`, exactly when the post-move head equals the food
position the step sets the growth flag, adds 1 to the score and replaces
the food with a spawn against the post-move body; otherwise score and food
are unchanged, so the score never decreases. -/
theorem Game.update_score_spec (spawn : List Pos → Pos) (g : Game) :
    (g.snake.move.body.headI = g.food →
      (Game.update spawn g).score = g.score + 1 ∧
      (Game.update spawn g).snake.grow = true ∧
      (Game.update spawn g).food = spawn g.snake.move.body) ∧
    (g.snake.move.body.headI ≠ g.food →
      (Game.update spawn g).score = g.score ∧
      (Game.update spawn g).food = g.food) ∧
    g.score ≤ (Game.update spawn g).score := by
  refine ⟨?_, ?_, ?_⟩
  · intro hcond
    simp only [Game.update, if_pos hcond]
    split <;> simp
  · intro hcond
    simp only [Game.update, if_neg hcond]
    split <;> simp
  · by_cases heq : g.snake.move.body.headI = g.food
    · simp only [Game.update, if_pos heq]
      split <;> simp [Nat.le_succ]
    · simp only [Game.update, if_neg heq]
      split <;> simp

/-- Concrete game used by witnesses: initial snake, food directly ahead at
`(420, 300)`, score 0, running. -/
def exampleGame : Game :=
  { snake := Snake.init, food := ((420 : Int), (300 : Int)), score := 0, running := true }

/-- Witness for C5: the initial snake moving onto food at `(420,300)` flags
growth, scores 1 and respawns the food. -/
theorem Game.update_score_spec_witness :
    ((Game.update (fun _ => ((0 : Int), (0 : Int))) exampleGame).score =
        exampleGame.score + 1 ∧
      (Game.update (fun _ => ((0 : Int), (0 : Int))) exampleGame).snake.grow = true ∧
      (Game.update (fun _ => ((0 : Int), (0 : Int))) exampleGame).food =
        (fun _ => ((0 : Int), (0 : Int))) exampleGame.snake.move.body) :=
  (Game.update_score_spec (fun _ => ((0 : Int), (0 : Int))) exampleGame).1 (by decide)

/-- Helper: a result of the placement retry loop is never in the occupied
list it was checked against. -/
theorem generate_valid_position_aux_not_mem (rand : Nat → Nat × Nat) (body : List Pos) :
    ∀ fuel i p, generate_valid_position_aux rand body i fuel = some p → p ∉ body := by
  intro fuel
  induction fuel with
  | zero => intro i p hp; simp [generate_valid_position_aux] at hp
  | succ n ih =>
    intro i p hp
    by_cases hmem : candidate rand i ∈ body
    · rw [generate_valid_position_aux, if_pos hmem] at hp
      exact ih _ _ hp
    · rw [generate_valid_position_aux, if_neg hmem] at hp
      cases hp
      exact hmem

/-- C6: every position returned by `Food.generate_valid_position` avoids
the snake body it was given, and consequently `Game.update` preserves the
invariant that the food is not inside the body (for any spawn function with
the placement property). -/
theorem generate_valid_position_not_in_body :
    (∀ (rand : Nat → Nat × Nat) (body : List Pos) (fuel : Nat) (p : Pos),
      generate_valid_position rand body fuel = some p → p ∉ body) ∧
    (∀ (spawn : List Pos → Pos) (g : Game) (h : Pos) (t : List Pos),
      (∀ b, spawn b ∉ b) → g.snake.body = h :: t → g.food ∉ g.snake.body →
      (Game.update spawn g).food ∉ (Game.update spawn g).snake.body) := by
  constructor
  · intro rand body fuel p hp
    exact generate_valid_position_aux_not_mem rand body fuel 0 p hp
  · intro spawn g h t hspawn hb hinv
    obtain ⟨hbody, -, -⟩ := Snake.move_body_eq g.snake h t hb
    by_cases heq : g.snake.move.body.headI = g.food <;>
      simp only [Game.update, heq, if_true, if_false, ite_true, ite_false]
    · split <;> exact hspawn _
    · rw [hb] at hinv
      have hfood : g.food ∉ g.snake.move.body := by
        rw [hbody]
        rw [hbody] at heq
        simp only [List.headI] at heq
        intro hmem
        rcases List.mem_cons.mp hmem with hhd | htl
        · exact heq hhd.symm
        · have : g.food ∈ h :: t := by
            cases hg : g.snake.grow <;> rw [hg] at htl
            · rw [if_neg (by simp)] at htl
              exact (List.dropLast_sublist (h :: t)).mem htl
            · rw [if_pos (by simp)] at htl
              exact htl
          exact hinv this
      split <;> exact hfood

/-- Witness for C6: a placement avoiding a one-cell body, and one update
step preserving the food-outside-body invariant on the example game. -/
theorem generate_valid_position_not_in_body_witness :
    ((0 : Int) * BLOCK_SIZE, (0 : Int) * BLOCK_SIZE) ∉ ([((20 : Int), (0 : Int))] : List Pos) :=
  generate_valid_position_not_in_body.1 (fun _ => (0, 0)) [((20 : Int), (0 : Int))] 1
    (((0 : Int) * BLOCK_SIZE, (0 : Int) * BLOCK_SIZE)) (by decide)

/-- C8: once `running` is clear the per-tick loop of `Game.run` no longer
executes the loop body, so the state — body, food, score, and the terminal
flag itself — never changes again. -/
theorem Game.tick_terminal (spawn : List Pos → Pos) (dir : Option Pos) (g : Game)
    (hterm : g.running = false) :
    Game.tick spawn dir g = g ∧
    (Game.tick spawn dir g).running = false ∧
    (Game.tick spawn dir g).snake.body = g.snake.body ∧
    (Game.tick spawn dir g).food = g.food ∧
    (Game.tick spawn dir g).score = g.score := by
  simp [Game.tick, hterm]

/-- Witness for C8 on a concrete terminated game. -/
theorem Game.tick_terminal_witness :
    Game.tick (fun _ => ((0 : Int), (0 : Int))) none (Game.mk Snake.init ((0 : Int), (0 : Int)) 5 false) =
      Game.mk Snake.init ((0 : Int), (0 : Int)) 5 false ∧
    (Game.tick (fun _ => ((0 : Int), (0 : Int))) none
      (Game.mk Snake.init ((0 : Int), (0 : Int)) 5 false)).running = false ∧
    (Game.tick (fun _ => ((0 : Int), (0 : Int))) none
      (Game.mk Snake.init ((0 : Int), (0 : Int)) 5 false)).snake.body =
      (Game.mk Snake.init ((0 : Int), (0 : Int)) 5 false).snake.body ∧
    (Game.tick (fun _ => ((0 : Int), (0 : Int))) none
      (Game.mk Snake.init ((0 : Int), (0 : Int)) 5 false)).food =
      (Game.mk Snake.init ((0 : Int), (0 : Int)) 5 false).food ∧
    (Game.tick (fun _ => ((0 : Int), (0 : Int))) none
      (Game.mk Snake.init ((0 : Int), (0 : Int)) 5 false)).score =
      (Game.mk Snake.init ((0 : Int), (0 : Int)) 5 false).score :=
  Game.tick_terminal (fun _ => ((0 : Int), (0 : Int))) none
    (Game.mk Snake.init ((0 : Int), (0 : Int)) 5 false) rfl

/-- All cells of the playfield at pixel positions: the exact range of the two
scaled `randint` draws in `Food.generate_valid_position`
(`x ∈ {0, 20, ..., 780}`, `y ∈ {0, 20, ..., 580}`). -/
def allCells : List Pos :=
  (List.range 40).flatMap
    (fun (a : Nat) => (List.range 30).map
      (fun (b : Nat) => ((a : Int) * BLOCK_SIZE, (b : Int) * BLOCK_SIZE)))

/-- Helper: every in-range scaled cell is in `allCells`. -/
theorem mem_allCells (a b : Nat) (ha : a < 40) (hb : b < 30) :
    ((a : Int) * BLOCK_SIZE, (b : Int) * BLOCK_SIZE) ∈ allCells := by
  unfold allCells
  refine List.mem_flatMap.mpr ⟨a, List.mem_range.mpr ha, ?_⟩
  exact List.mem_map.mpr ⟨b, List.mem_range.mpr hb, rfl⟩

/-- Helper: if every candidate draw is occupied, the retry loop never
returns, whatever the fuel. -/
theorem generate_valid_position_aux_full (rand : Nat → Nat × Nat) (body : List Pos)
    (hfull : ∀ i, candidate rand i ∈ body) :
    ∀ fuel i, generate_valid_position_aux rand body i fuel = none := by
  intro fuel
  induction fuel with
  | zero => intro i; rfl
  | succ n ih =>
    intro i
    rw [generate_valid_position_aux, if_pos (hfull i)]
    exact ih (i + 1)

/-- C7: on a fully occupied board the `while True` retry loop in
`Food.generate_valid_position` never produces a position — for no number of
iterations does it return — so the code hangs instead of reporting the
`NoSpaceAvailable` outcome the spec requires; `Game.update` likewise has no
`BoardCleared` path. -/
theorem generate_valid_position_full_board :
    ¬ ∃ (fuel : Nat) (p : Pos),
      generate_valid_position (fun _ => (0, 0)) allCells fuel = some p := by
  rintro ⟨fuel, p, hp⟩
  rw [generate_valid_position,
    generate_valid_position_aux_full (fun _ => (0, 0)) allCells
      (fun i => by simpa [candidate] using mem_allCells 0 0 (by norm_num) (by norm_num))
      fuel 0] at hp
  exact Option.noConfusion hp

/-- Helper: every position the retry loop returns is one of the candidate
draws. -/
theorem generate_valid_position_aux_candidates (rand : Nat → Nat × Nat) (body : List Pos) :
    ∀ fuel i p, generate_valid_position_aux rand body i fuel = some p →
      ∃ j, p = candidate rand j := by
  intro fuel
  induction fuel with
  | zero => intro i p hp; simp [generate_valid_position_aux] at hp
  | succ n ih =>
    intro i p hp
    by_cases hmem : candidate rand i ∈ body
    · rw [generate_valid_position_aux, if_pos hmem] at hp
      exact ih _ _ hp
    · rw [generate_valid_position_aux, if_neg hmem] at hp
      cases hp
      exact ⟨i, rfl⟩

/-- C10: provided each `randint` draw lies in the range the code requests
(`randint(0, (SCREEN_WIDTH - BLOCK_SIZE) // BLOCK_SIZE) = randint(0, 39)`
and `randint(0, 29)`), every position the placement returns has both
coordinates non-negative multiples of `BLOCK_SIZE`, with
`x ≤ SCREEN_WIDTH - BLOCK_SIZE` and `y ≤ SCREEN_HEIGHT - BLOCK_SIZE`. -/
theorem generate_valid_position_bounds (rand : Nat → Nat × Nat)
    (hr : ∀ n, (rand n).1 ≤ 39 ∧ (rand n).2 ≤ 29)
    (body : List Pos) (fuel : Nat) (p : Pos)
    (hp : generate_valid_position rand body fuel = some p) :
    0 ≤ p.1 ∧ p.1 ≤ SCREEN_WIDTH - BLOCK_SIZE ∧ BLOCK_SIZE ∣ p.1 ∧
    0 ≤ p.2 ∧ p.2 ≤ SCREEN_HEIGHT - BLOCK_SIZE ∧ BLOCK_SIZE ∣ p.2 := by
  obtain ⟨j, rfl⟩ := generate_valid_position_aux_candidates rand body fuel 0 p hp
  obtain ⟨h1, h2⟩ := hr j
  have h1' : ((rand j).1 : Int) ≤ 39 := by exact_mod_cast h1
  have h2' : ((rand j).2 : Int) ≤ 29 := by exact_mod_cast h2
  refine ⟨?_, ?_, ⟨((rand j).1 : Int), mul_comm _ _⟩, ?_, ?_, ⟨((rand j).2 : Int), mul_comm _ _⟩⟩
  · exact mul_nonneg (Int.natCast_nonneg _) (by norm_num [BLOCK_SIZE])
  · calc ((rand j).1 : Int) * BLOCK_SIZE ≤ 39 * BLOCK_SIZE := by
          exact mul_le_mul_of_nonneg_right h1' (by norm_num [BLOCK_SIZE])
      _ = SCREEN_WIDTH - BLOCK_SIZE := by norm_num [BLOCK_SIZE, SCREEN_WIDTH]
  · exact mul_nonneg (Int.natCast_nonneg _) (by norm_num [BLOCK_SIZE])
  · calc ((rand j).2 : Int) * BLOCK_SIZE ≤ 29 * BLOCK_SIZE := by
          exact mul_le_mul_of_nonneg_right h2' (by norm_num [BLOCK_SIZE])
      _ = SCREEN_HEIGHT - BLOCK_SIZE := by norm_num [BLOCK_SIZE, SCREEN_HEIGHT]

/-- Witness for C10: a concrete draw stream returning `(0, 0)` satisfies the
bounds. -/
theorem generate_valid_position_bounds_witness :
    0 ≤ ((0 : Int) * BLOCK_SIZE, (0 : Int) * BLOCK_SIZE).1 ∧
    ((0 : Int) * BLOCK_SIZE, (0 : Int) * BLOCK_SIZE).1 ≤ SCREEN_WIDTH - BLOCK_SIZE ∧
    BLOCK_SIZE ∣ ((0 : Int) * BLOCK_SIZE, (0 : Int) * BLOCK_SIZE).1 ∧
    0 ≤ ((0 : Int) * BLOCK_SIZE, (0 : Int) * BLOCK_SIZE).2 ∧
    ((0 : Int) * BLOCK_SIZE, (0 : Int) * BLOCK_SIZE).2 ≤ SCREEN_HEIGHT - BLOCK_SIZE ∧
    BLOCK_SIZE ∣ ((0 : Int) * BLOCK_SIZE, (0 : Int) * BLOCK_SIZE).2 :=
  generate_valid_position_bounds (fun _ => (0, 0)) (fun _ => ⟨Nat.zero_le 39, Nat.zero_le 29⟩)
    [] 1 ((0 : Int) * BLOCK_SIZE, (0 : Int) * BLOCK_SIZE) (by decide)
